import Mathlib

/-
Shallow embedding of osoy-aur (src/src/main.rs), an AUR helper built on the
osoy library.  External effects (process spawning, the filesystem, the
interactive prompt) are modelled as per-target oracle inputs:
a spawned process's outcome is `Option (Option Int)` where `none` means the
process could not be spawned (`status()` returned `Err`), `some none` means it
terminated without an exit code (killed by a signal), and `some (some c)`
means it exited with code `c`.
-/

namespace OsoyAur

/-- `AUR_URL` constant, main.rs line 44. -/
def AUR_URL : String := "https://aur.archlinux.org/"

/-- Character-list test that `s` begins with `p` (used to model "looks like a
fully-qualified remote URL"). -/
def str_starts_with (s p : String) : Bool :=
  s.data.take p.data.length == p.data

/-- Modelled from the spec: the osoy library's Location resolver decides
whether an input "already looks like a fully-qualified remote URL"
(spec 4.1); the library code is not under src/.  A fully-qualified remote
URL is one carrying a scheme (spec 3: "scheme + host + path"). -/
def looks_like_remote_url (s : String) : Bool :=
  str_starts_with s "https://" || str_starts_with s "http://"

/-- Modelled from the spec: the configured default remote base of the library
resolver ("e.g., a package index host", spec 4.1); its exact value is a
configuration-level convention the spec leaves open (spec 9), and the branch
using it is unreachable in this repository because `rename_targets` always
passes a string beginning with `AUR_URL`. -/
def DEFAULT_REMOTE_BASE : String := "https://github.com/"

/-- Strip a leading URL scheme (spec 4.1 id computation). -/
def strip_scheme (s : String) : String :=
  if str_starts_with s "https://" then s.drop 8
  else if str_starts_with s "http://" then s.drop 7
  else s

/-- Strip trailing slashes (spec 4.1 id computation). -/
def strip_trailing_slashes (s : String) : String :=
  ((s.data.reverse.dropWhile (fun c => c == '/')).reverse).asString

/-- Substitute remaining path separators with a filesystem-safe separator
(spec 4.1 id computation). -/
def substitute_separators (s : String) : String :=
  (s.data.map (fun c => if c == '/' then '.' else c)).asString

/-- Modelled from the spec: the id of a Location "is computed by stripping
scheme and trailing slashes from `remote_url` and substituting any remaining
path separators with a filesystem-safe separator" (spec 4.1); the library
code is not under src/. -/
def make_id (remote : String) : String :=
  substitute_separators (strip_trailing_slashes (strip_scheme remote))

/-- A resolved package source reference (spec 3: Location). -/
structure Location where
  remote_url : String
  id : String
deriving Repr, DecidableEq

/-- Modelled from the spec: the osoy library's `Location::from_str` (not under
src/): "if `input` already looks like a fully-qualified remote URL, use it
verbatim as `remote_url`; otherwise treat it as a path segment relative to a
configured default remote base and concatenate" (spec 4.1). -/
def location_from_str (input : String) : Location :=
  let remote := if looks_like_remote_url input then input
                else DEFAULT_REMOTE_BASE ++ input
  { remote_url := remote, id := make_id remote }

/-- `rename_targets`, main.rs lines 47-55.  Targets are taken as the display
strings of the user-supplied locations (the Rust code formats each target
into `format!("{}{}", AUR_URL, target)` and re-parses). -/
def rename_targets (targets : List String) (fill_empty : Bool) : List Location :=
  match !fill_empty || targets.length > 0 with
  | true => targets.map (fun target => location_from_str (AUR_URL ++ target))
  | false => [location_from_str AUR_URL]

/-- The `.status().ok().map(|status| status.code()).flatten().map(|code| code)
.unwrap_or(1)` chain used for every spawned process in main.rs (lines 60-65,
212-217, 266-271).  The argument models the `.ok()` output. -/
def exit_code_or_one (status : Option (Option Int)) : Int :=
  ((status.join).map (fun code => code)).getD 1

/-- `force_remove_dir`, main.rs lines 57-66: spawn `rm -rf path` and reduce
the outcome with the chain above.  The argument models the spawn outcome of
the `rm` process. -/
def force_remove_dir (rm_status : Option (Option Int)) : Int :=
  exit_code_or_one rm_status

/-- Per-target environment for the Install arm (main.rs lines 157-232): the
target's resolved id, whether its directory already exists under the source
root (`path.exists()`, line 170), whether `gitutil::clone` succeeds
(line 173), the spawn outcome of the cleanup `rm` on clone failure
(line 184), whether `env::set_current_dir` succeeds (line 193), and the spawn
outcome of the `makepkg` build process (lines 206-217). -/
structure InstallStep where
  id : String
  exists_already : Bool
  clone_ok : Bool
  cleanup_status : Option (Option Int)
  chdir_ok : Bool
  build_status : Option (Option Int)
deriving Repr, DecidableEq

/-- Observable outcome of phase 1 (resolve/clone) for one install target. -/
structure Phase1Trace where
  clone_attempted : Bool
  cloned : Bool
  cleanup_invoked : Bool
  residual_dir : Bool
  error_delta : Nat
deriving Repr, DecidableEq

/-- One iteration of the phase-1 loop, main.rs lines 166-188: an existing
directory is pushed to `paths` without cloning; otherwise a clone is
attempted, a success is pushed to `paths`, and a failure increments `errors`
and force-removes the destination path (result discarded).  `residual_dir`
records whether a partial directory is left at the destination after the
cleanup. -/
def install_phase1_step (t : InstallStep) : Phase1Trace :=
  if t.exists_already then
    { clone_attempted := false, cloned := true, cleanup_invoked := false,
      residual_dir := false, error_delta := 0 }
  else if t.clone_ok then
    { clone_attempted := true, cloned := true, cleanup_invoked := false,
      residual_dir := false, error_delta := 0 }
  else
    { clone_attempted := true, cloned := false, cleanup_invoked := true,
      residual_dir := force_remove_dir t.cleanup_status != 0, error_delta := 1 }

/-- The phase-1 loop, main.rs lines 163-188: fold over the targets
accumulating `(errors, paths)` from `(0, [])`. -/
def installLoop1 (ts : List InstallStep) : Nat × List InstallStep :=
  ts.foldl
    (fun acc t =>
      if t.exists_already then (acc.1, acc.2 ++ [t])
      else if t.clone_ok then (acc.1, acc.2 ++ [t])
      else (acc.1 + 1, acc.2))
    (0, [])

/-- One iteration of the phase-2 loop, main.rs lines 192-229: a failed
`set_current_dir` counts one error; otherwise `makepkg` is spawned and a
non-zero reduced exit code counts one error. -/
def install_phase2_step (t : InstallStep) : Nat :=
  if t.chdir_ok then
    if exit_code_or_one t.build_status != 0 then 1 else 0
  else 1

/-- The Install arm of `exec`, main.rs lines 157-232: run phase 1 over all
targets, then fold the phase-2 errors over the collected `paths`, returning
the final `errors` counter. -/
def exec_install (ts : List InstallStep) : Nat :=
  let phase1 := installLoop1 ts
  phase1.2.foldl (fun errors t => errors + install_phase2_step t) phase1.1

/-- The targets whose path reaches the phase-2 `paths` list (already existing
or successfully cloned), in order. -/
def install_paths (ts : List InstallStep) : List InstallStep :=
  ts.filter (fun t => (install_phase1_step t).cloned)

/-- Total phase-1 error contributions of a batch. -/
def install_phase1_errors (ts : List InstallStep) : Nat :=
  (ts.map (fun t => (install_phase1_step t).error_delta)).sum

/-- Total phase-2 error contributions of a path list. -/
def install_phase2_errors (ps : List InstallStep) : Nat :=
  (ps.map install_phase2_step).sum

/-- Total error contribution of a single install target across both phases. -/
def install_target_delta (t : InstallStep) : Nat :=
  (install_phase1_step t).error_delta +
    (if (install_phase1_step t).cloned then install_phase2_step t else 0)

/-- Whether the external build action (`makepkg`) is spawned for a target: it
must have reached the `paths` list and its `set_current_dir` must succeed
(main.rs lines 192-217). -/
def build_invoked (t : InstallStep) : Bool :=
  (install_phase1_step t).cloned && t.chdir_ok

/-- Per-target environment for the Remove arm (main.rs lines 243-294): the
matched directory name, the `ask_bool!` answer (consulted only when `force`
is false, line 245), the spawn outcome of the external uninstall action
(`pacman`/`sudo pacman`, lines 261-271), and the spawn outcome of the
`rm -rf` in `force_remove_dir` (line 279). -/
structure RemoveStep where
  name : String
  confirm : Bool
  uninstall_status : Option (Option Int)
  rm_status : Option (Option Int)
deriving Repr, DecidableEq

/-- Observable outcome of processing one matched removal target. -/
structure RemoveTrace where
  uninstall_invoked : Bool
  rm_invoked : Bool
  dir_present : Bool
  error_delta : Nat
deriving Repr, DecidableEq

/-- One iteration of the removal loop, main.rs lines 243-294: skip unless
forced or confirmed; spawn the uninstall action and count an error when its
reduced exit code is non-zero (lines 273-276); when that code is zero or
`force` is set, invoke `force_remove_dir` and count a further error when it
returns non-zero (lines 278-292).  `dir_present` records whether the matched
directory is still on disk afterwards (the matcher only yields existing
directories; `rm -rf` removes the directory exactly when it exits 0). -/
def remove_step (force : Bool) (s : RemoveStep) : RemoveTrace :=
  if force || s.confirm then
    let exit_code := exit_code_or_one s.uninstall_status
    let uninstall_err : Nat := if exit_code != 0 then 1 else 0
    if exit_code == 0 || force then
      let rm_exit := force_remove_dir s.rm_status
      { uninstall_invoked := true, rm_invoked := true,
        dir_present := rm_exit != 0,
        error_delta := uninstall_err + (if rm_exit != 0 then 1 else 0) }
    else
      { uninstall_invoked := true, rm_invoked := false,
        dir_present := true, error_delta := uninstall_err }
  else
    { uninstall_invoked := false, rm_invoked := false,
      dir_present := true, error_delta := 0 }

/-- The Remove arm of `exec`, main.rs lines 234-303: on a successful
`repo::iterate_matching_exists` call fold the per-target error deltas over
the matched targets from `errors = 0`; on a setup error increment `errors`
once and stop (lines 296-299). -/
def exec_remove (force : Bool) (matched : Except String (List RemoveStep)) : Nat :=
  match matched with
  | Except.ok steps =>
      steps.foldl (fun errors s => errors + (remove_step force s).error_delta) 0
  | Except.error _ => 0 + 1

/-- Total error contributions of a removal batch. -/
def remove_errors (force : Bool) (steps : List RemoveStep) : Nat :=
  (steps.map (fun s => (remove_step force s).error_delta)).sum

/-- Modelled from the spec: the osoy library's repository matcher
(`repo::iterate_matching_exists`, spec 4.3), not under src/.  Only the
exact-name policy is modelled (regex compilation is delegated to an external
capability): each directory entry under the root is yielded when its name
equals some target's id.  The claims below use it only at an empty target
list, where the spec fixes the result: "`matching_existing(root, [], false)`
yields the empty sequence" (spec 8). -/
def matching_exact (entries : List String) (targets : List Location) : List String :=
  entries.filter (fun e => targets.any (fun t => t.id == e))

theorem install_phase1_errors_nil : install_phase1_errors [] = 0 := rfl

theorem install_phase1_errors_cons (t : InstallStep) (ts : List InstallStep) :
    install_phase1_errors (t :: ts)
      = (install_phase1_step t).error_delta + install_phase1_errors ts := by
  simp [install_phase1_errors]

theorem install_paths_nil : install_paths [] = [] := rfl

theorem install_paths_cons (t : InstallStep) (ts : List InstallStep) :
    install_paths (t :: ts)
      = if (install_phase1_step t).cloned then t :: install_paths ts
        else install_paths ts := by
  simp [install_paths, List.filter_cons]

theorem install_phase2_errors_cons (t : InstallStep) (ps : List InstallStep) :
    install_phase2_errors (t :: ps)
      = install_phase2_step t + install_phase2_errors ps := by
  simp [install_phase2_errors]

theorem installLoop1_spec (ts : List InstallStep) :
    installLoop1 ts = (install_phase1_errors ts, install_paths ts) := by
  have h : ∀ (l : List InstallStep) (acc : Nat × List InstallStep),
      l.foldl
        (fun acc t =>
          if t.exists_already then (acc.1, acc.2 ++ [t])
          else if t.clone_ok then (acc.1, acc.2 ++ [t])
          else (acc.1 + 1, acc.2)) acc
      = (acc.1 + install_phase1_errors l, acc.2 ++ install_paths l) := by
    intro l
    induction l with
    | nil => intro acc; simp [install_phase1_errors, install_paths]
    | cons t l ih =>
      intro acc
      by_cases h1 : t.exists_already = true
      · simp [List.foldl_cons, h1, ih, install_phase1_errors_cons,
          install_paths_cons, install_phase1_step]
      · by_cases h2 : t.clone_ok = true
        · simp [List.foldl_cons, h1, h2, ih, install_phase1_errors_cons,
            install_paths_cons, install_phase1_step]
        · simp only [List.foldl_cons, h1, h2, ih, install_phase1_errors_cons,
            install_paths_cons, install_phase1_step, Bool.false_eq_true,
            if_false, if_true]
          simp [install_phase1_step, h1, h2]
          omega
  simpa using h ts (0, [])

theorem installLoop2_spec (ps : List InstallStep) :
    ∀ e : Nat,
      ps.foldl (fun errors t => errors + install_phase2_step t) e
        = e + install_phase2_errors ps := by
  induction ps with
  | nil => intro e; simp [install_phase2_errors]
  | cons t ps ih =>
    intro e
    simp only [List.foldl_cons, ih, install_phase2_errors_cons]
    omega

theorem exec_install_eq (ts : List InstallStep) :
    exec_install ts
      = install_phase1_errors ts + install_phase2_errors (install_paths ts) := by
  simp [exec_install, installLoop1_spec, installLoop2_spec]

theorem install_phase1_errors_append (xs ys : List InstallStep) :
    install_phase1_errors (xs ++ ys)
      = install_phase1_errors xs + install_phase1_errors ys := by
  simp [install_phase1_errors]

theorem install_paths_append (xs ys : List InstallStep) :
    install_paths (xs ++ ys) = install_paths xs ++ install_paths ys := by
  simp [install_paths, List.filter_append]

theorem install_phase2_errors_append (xs ys : List InstallStep) :
    install_phase2_errors (xs ++ ys)
      = install_phase2_errors xs + install_phase2_errors ys := by
  simp [install_phase2_errors]

theorem exec_install_append (xs ys : List InstallStep) :
    exec_install (xs ++ ys) = exec_install xs + exec_install ys := by
  simp only [exec_install_eq, install_phase1_errors_append, install_paths_append,
    install_phase2_errors_append]
  omega

theorem exec_install_target_sum (ts : List InstallStep) :
    exec_install ts = (ts.map install_target_delta).sum := by
  rw [exec_install_eq]
  induction ts with
  | nil => simp [install_phase1_errors, install_paths, install_phase2_errors]
  | cons t ts ih =>
    rw [install_phase1_errors_cons, install_paths_cons]
    by_cases h : (install_phase1_step t).cloned = true
    · simp only [h, if_true, install_phase2_errors_cons, List.map_cons,
        List.sum_cons, install_target_delta]
      omega
    · simp only [h, Bool.false_eq_true, if_false, List.map_cons, List.sum_cons,
        install_target_delta]
      omega

theorem exec_remove_ok (force : Bool) (steps : List RemoveStep) :
    exec_remove force (Except.ok steps) = remove_errors force steps := by
  have h : ∀ (l : List RemoveStep) (e : Nat),
      l.foldl (fun errors s => errors + (remove_step force s).error_delta) e
        = e + remove_errors force l := by
    intro l
    induction l with
    | nil => intro e; simp [remove_errors]
    | cons s l ih =>
      intro e
      simp only [List.foldl_cons, ih, remove_errors, List.map_cons, List.sum_cons]
      omega
  simpa [exec_remove] using h steps 0

theorem remove_errors_append (force : Bool) (xs ys : List RemoveStep) :
    remove_errors force (xs ++ ys)
      = remove_errors force xs + remove_errors force ys := by
  simp [remove_errors]

theorem str_starts_with_aur (t : String) :
    str_starts_with (AUR_URL ++ t) "https://" = true := by
  unfold str_starts_with
  rw [String.data_append AUR_URL t,
    List.take_append_of_le_length (by decide)]
  decide

theorem looks_like_aur (t : String) :
    looks_like_remote_url (AUR_URL ++ t) = true := by
  simp [looks_like_remote_url, str_starts_with_aur]

theorem location_from_str_aur (t : String) :
    (location_from_str (AUR_URL ++ t)).remote_url = AUR_URL ++ t := by
  simp [location_from_str, looks_like_aur]

theorem install_phase2_step_le_one (t : InstallStep) : install_phase2_step t ≤ 1 := by
  unfold install_phase2_step
  split
  · split <;> omega
  · omega

theorem install_target_delta_le_one (t : InstallStep) : install_target_delta t ≤ 1 := by
  unfold install_target_delta
  by_cases h1 : t.exists_already = true
  · simpa [install_phase1_step, h1] using install_phase2_step_le_one t
  · rw [Bool.not_eq_true] at h1
    by_cases h2 : t.clone_ok = true
    · simpa [install_phase1_step, h1, h2] using install_phase2_step_le_one t
    · rw [Bool.not_eq_true] at h2
      simp [install_phase1_step, h1, h2]

theorem remove_step_delta_le_two (force : Bool) (s : RemoveStep) :
    (remove_step force s).error_delta ≤ 2 := by
  unfold remove_step
  by_cases hc : (force || s.confirm) = true
  · by_cases he : (exit_code_or_one s.uninstall_status == 0 || force) = true
    · simp only [hc, if_true, he]
      split <;> split <;> omega
    · rw [Bool.not_eq_true] at he
      simp only [hc, if_true, he, Bool.false_eq_true, if_false]
      split <;> omega
  · rw [Bool.not_eq_true] at hc
    simp [hc]

/-- A three-target install batch: target 1 clones and builds cleanly. -/
def example_good1 : InstallStep :=
  { id := "good1", exists_already := false, clone_ok := true,
    cleanup_status := none, chdir_ok := true, build_status := some (some 0) }

/-- A three-target install batch: target 2's clone fails. -/
def example_bad2 : InstallStep :=
  { id := "bad2", exists_already := false, clone_ok := false,
    cleanup_status := some (some 0), chdir_ok := true,
    build_status := some (some 0) }

/-- A three-target install batch: target 3 clones and builds cleanly. -/
def example_good3 : InstallStep :=
  { id := "good3", exists_already := false, clone_ok := true,
    cleanup_status := none, chdir_ok := true, build_status := some (some 0) }

/-- An install target whose clone fails and whose cleanup succeeds. -/
def failed_clone_step : InstallStep :=
  { id := "w5", exists_already := false, clone_ok := false,
    cleanup_status := some (some 0), chdir_ok := true, build_status := none }

/-- An install target whose directory already exists under the source root. -/
def existing_dir_step : InstallStep :=
  { id := "w6", exists_already := true, clone_ok := false,
    cleanup_status := none, chdir_ok := true, build_status := some (some 0) }

/-- Claim C1 counterexample: a single forced-removal target whose external
uninstall action exits 1 and whose subsequent directory deletion also fails
contributes two increments to `error_count`, not at most one: the one-target
batch returns 2. -/
theorem C1_counterexample :
    (remove_step true
      { name := "pkg", confirm := true,
        uninstall_status := some (some 1), rm_status := some (some 1) }).error_delta = 2
    ∧ ¬ (remove_step true
        { name := "pkg", confirm := true,
          uninstall_status := some (some 1), rm_status := some (some 1) }).error_delta ≤ 1
    ∧ exec_remove true (Except.ok
        [{ name := "pkg", confirm := true,
           uninstall_status := some (some 1), rm_status := some (some 1) }]) = 2 := by
  refine ⟨rfl, by decide, rfl⟩

/-- Claim C1 (amended): the aggregate `error_count` equals the sum of the
per-target error contributions; an install target contributes at most one
increment, but a removal target contributes up to two — one when the external
uninstall action exits non-zero and one when the subsequent directory
deletion fails, and both can occur for a single target during a forced
removal. -/
theorem C1_amended :
    (∀ ts : List InstallStep, exec_install ts = (ts.map install_target_delta).sum)
    ∧ (∀ t : InstallStep, install_target_delta t ≤ 1)
    ∧ (∀ (force : Bool) (steps : List RemoveStep),
        exec_remove force (Except.ok steps) = remove_errors force steps)
    ∧ (∀ (force : Bool) (s : RemoveStep), (remove_step force s).error_delta ≤ 2) :=
  ⟨exec_install_target_sum, install_target_delta_le_one, exec_remove_ok,
    remove_step_delta_le_two⟩

/-- Claim C2 counterexample: `rename_targets` concatenates the default remote
base onto every input, so the fully-qualified URL input
`https://example.com/pkg` resolves to remote URL
`https://aur.archlinux.org/https://example.com/pkg`, not to itself. -/
theorem C2_counterexample :
    looks_like_remote_url "https://example.com/pkg" = true
    ∧ (rename_targets ["https://example.com/pkg"] false).map Location.remote_url
        = ["https://aur.archlinux.org/https://example.com/pkg"]
    ∧ "https://aur.archlinux.org/https://example.com/pkg" ≠ "https://example.com/pkg" := by
  refine ⟨by decide, by decide, by decide⟩

/-- Claim C2 (amended): location resolution always concatenates the input as
a path segment onto the configured default remote base `AUR_URL`, even when
the input is itself a fully-qualified remote URL: for every input target
string t the resolved Location's remote URL equals `AUR_URL ++ t`. -/
theorem C2_amended (ts : List String) :
    (rename_targets ts false).map Location.remote_url
      = ts.map (fun t => AUR_URL ++ t) := by
  simp [rename_targets, location_from_str_aur]

/-- Claim C3: a matched removal target with `force = false` and a declined
confirmation runs no uninstall action, leaves the directory present, and
contributes no error; for a target that is forced or confirmed, the
force-delete of the directory is invoked exactly when the external uninstall
action's reduced exit code is 0 or `force` is set, and when it is not invoked
the directory is left in place. -/
theorem C3 (force : Bool) (s : RemoveStep) :
    (force = false → s.confirm = false →
      remove_step force s
        = { uninstall_invoked := false, rm_invoked := false,
            dir_present := true, error_delta := 0 })
    ∧ (force = true ∨ s.confirm = true →
        ((remove_step force s).rm_invoked
            = (exit_code_or_one s.uninstall_status == 0 || force))
        ∧ ((remove_step force s).rm_invoked = false →
            (remove_step force s).dir_present = true)) := by
  constructor
  · intro h1 h2
    simp [remove_step, h1, h2]
  · intro h
    have hc : (force || s.confirm) = true := by
      rcases h with h | h <;> simp [h]
    by_cases he : (exit_code_or_one s.uninstall_status == 0 || force) = true
    · simp [remove_step, hc, he]
    · rw [Bool.not_eq_true] at he
      simp [remove_step, hc, he]

/-- Witness for C3 at concrete inputs: a declined unforced removal, and a
forced removal whose uninstall action exits 1. -/
theorem C3_witness :
    remove_step false
        { name := "pkg2", confirm := false,
          uninstall_status := none, rm_status := none }
      = { uninstall_invoked := false, rm_invoked := false,
          dir_present := true, error_delta := 0 }
    ∧ (remove_step true
        { name := "pkg3", confirm := true,
          uninstall_status := some (some 1), rm_status := some (some 0) }).rm_invoked
      = (exit_code_or_one (some (some 1)) == 0 || true) :=
  ⟨(C3 false
      { name := "pkg2", confirm := false,
        uninstall_status := none, rm_status := none }).1 rfl rfl,
   ((C3 true
      { name := "pkg3", confirm := true,
        uninstall_status := some (some 1), rm_status := some (some 0) }).2
      (Or.inl rfl)).1⟩

/-- Claim C4: a target whose clone fails never reaches the phase-2 `paths`
list, its build action is never invoked, it contributes one error, and the
rest of the batch is unaffected; on the spec's three-target example with only
target 2's clone failing, the batch returns `error_count` 1 and the build
action is invoked exactly for targets 1 and 3. -/
theorem C4 :
    (∀ (xs ys : List InstallStep) (t : InstallStep),
      t.exists_already = false → t.clone_ok = false →
      (install_phase1_step t).cloned = false
      ∧ build_invoked t = false
      ∧ install_paths (xs ++ t :: ys) = install_paths xs ++ install_paths ys
      ∧ exec_install (xs ++ t :: ys) = exec_install xs + 1 + exec_install ys
      ∧ 1 ≤ exec_install (xs ++ t :: ys))
    ∧ exec_install [example_good1, example_bad2, example_good3] = 1
    ∧ install_paths [example_good1, example_bad2, example_good3]
        = [example_good1, example_good3]
    ∧ [example_good1, example_bad2, example_good3].map build_invoked
        = [true, false, true] := by
  refine ⟨?_, rfl, rfl, rfl⟩
  intro xs ys t h1 h2
  have hcl : (install_phase1_step t).cloned = false := by
    simp [install_phase1_step, h1, h2]
  have hd : (install_phase1_step t).error_delta = 1 := by
    simp [install_phase1_step, h1, h2]
  have hsplit : xs ++ t :: ys = (xs ++ [t]) ++ ys := by simp
  have hone : exec_install [t] = 1 := by
    rw [exec_install_eq]
    simp [install_phase1_errors, install_paths, install_phase2_errors, hcl, hd]
  have hexec : exec_install (xs ++ t :: ys)
      = exec_install xs + 1 + exec_install ys := by
    rw [hsplit, exec_install_append, exec_install_append, hone]
  refine ⟨hcl, by simp [build_invoked, hcl], ?_, hexec, by omega⟩
  rw [hsplit, install_paths_append, install_paths_append]
  simp [install_paths, hcl]

/-- Witness for C4: the general part applied to the one-target batch whose
only clone fails. -/
theorem C4_witness :
    (install_phase1_step example_bad2).cloned = false
    ∧ build_invoked example_bad2 = false
    ∧ install_paths ([] ++ example_bad2 :: [])
        = install_paths [] ++ install_paths []
    ∧ exec_install ([] ++ example_bad2 :: [])
        = exec_install [] + 1 + exec_install []
    ∧ 1 ≤ exec_install ([] ++ example_bad2 :: []) :=
  C4.1 [] [] example_bad2 rfl rfl

/-- Claim C5: an install target whose clone fails triggers the force-recursive
cleanup of its destination path, a successful cleanup leaves no residual
directory, and the target's total error contribution is exactly 1 whatever
the cleanup's outcome (its result is discarded). -/
theorem C5 (t : InstallStep) (h1 : t.exists_already = false)
    (h2 : t.clone_ok = false) :
    (install_phase1_step t).cleanup_invoked = true
    ∧ (force_remove_dir t.cleanup_status = 0 →
        (install_phase1_step t).residual_dir = false)
    ∧ (∀ r, install_target_delta { t with cleanup_status := r } = 1) := by
  refine ⟨by simp [install_phase1_step, h1, h2], ?_, ?_⟩
  · intro hr
    simp [install_phase1_step, h1, h2, hr]
  · intro r
    simp [install_target_delta, install_phase1_step, h1, h2]

/-- Witness for C5 at a concrete failed-clone target with a succeeding
cleanup. -/
theorem C5_witness :
    (install_phase1_step failed_clone_step).cleanup_invoked = true
    ∧ (install_phase1_step failed_clone_step).residual_dir = false
    ∧ install_target_delta { failed_clone_step with cleanup_status := none } = 1 :=
  ⟨(C5 failed_clone_step rfl rfl).1,
   (C5 failed_clone_step rfl rfl).2.1 rfl,
   (C5 failed_clone_step rfl rfl).2.2 none⟩

/-- Claim C6: an install target whose destination directory already exists is
never cloned and its path goes straight into the phase-2 build list, in
place. -/
theorem C6 (t : InstallStep) (h : t.exists_already = true) :
    (install_phase1_step t).clone_attempted = false
    ∧ (install_phase1_step t).cloned = true
    ∧ (∀ xs ys, install_paths (xs ++ t :: ys)
        = install_paths xs ++ t :: install_paths ys) := by
  have hc : (install_phase1_step t).cloned = true := by
    simp [install_phase1_step, h]
  refine ⟨by simp [install_phase1_step, h], hc, ?_⟩
  intro xs ys
  rw [show xs ++ t :: ys = (xs ++ [t]) ++ ys by simp,
    install_paths_append, install_paths_append]
  simp [install_paths, hc]

/-- Witness for C6 at a concrete already-existing target. -/
theorem C6_witness :
    (install_phase1_step existing_dir_step).clone_attempted = false
    ∧ (install_phase1_step existing_dir_step).cloned = true
    ∧ install_paths ([] ++ existing_dir_step :: [])
        = install_paths [] ++ existing_dir_step :: install_paths [] :=
  ⟨(C6 existing_dir_step rfl).1, (C6 existing_dir_step rfl).2.1,
   (C6 existing_dir_step rfl).2.2 [] []⟩

/-- Claim C7: with fill-empty requested (the List arm) an empty target list
resolves to the single sentinel Location for the default base with no
sub-path; without it (Install and Remove) an empty list stays empty and the
batch is a no-op returning `error_count` 0. -/
theorem C7 :
    rename_targets [] true = [location_from_str AUR_URL]
    ∧ (location_from_str AUR_URL).remote_url = AUR_URL
    ∧ (location_from_str AUR_URL).id = "aur.archlinux.org"
    ∧ rename_targets [] false = []
    ∧ exec_install [] = 0
    ∧ (∀ entries, matching_exact entries (rename_targets [] false) = [])
    ∧ (∀ force, exec_remove force (Except.ok []) = 0) := by
  refine ⟨rfl, by decide, by decide, rfl, rfl, ?_, fun force => rfl⟩
  intro entries
  simp [matching_exact, rename_targets]

/-- Claim C8: the value `exec` returns (surfaced by `main` as the process
exit code) is the accumulated `error_count` over all targets, zero exactly
when no per-target error contribution occurred, and a failure of the
repository-matching setup call during removal contributes at least 1 on its
own. -/
theorem C8 :
    (∀ ts : List InstallStep,
      exec_install ts = (ts.map install_target_delta).sum
      ∧ (exec_install ts = 0 ↔ ∀ t ∈ ts, install_target_delta t = 0))
    ∧ (∀ (force : Bool) (steps : List RemoveStep),
      exec_remove force (Except.ok steps) = remove_errors force steps
      ∧ (exec_remove force (Except.ok steps) = 0
          ↔ ∀ s ∈ steps, (remove_step force s).error_delta = 0))
    ∧ (∀ (force : Bool) (msg : String),
        1 ≤ exec_remove force (Except.error msg)) := by
  refine ⟨?_, ?_, fun force msg => le_refl 1⟩
  · intro ts
    refine ⟨exec_install_target_sum ts, ?_⟩
    rw [exec_install_target_sum ts, List.sum_eq_zero_iff]
    simp
  · intro force steps
    refine ⟨exec_remove_ok force steps, ?_⟩
    rw [exec_remove_ok force steps, remove_errors, List.sum_eq_zero_iff]
    simp

/-- Claim C9: for both install and removal batches the accumulated
`error_count` is additive over concatenation of target lists — hence
monotonically non-decreasing as targets are processed in order, and a failing
prefix never prevents the remaining targets from being processed and
contributing exactly their own outcomes. -/
theorem C9 :
    (∀ xs ys : List InstallStep,
      exec_install (xs ++ ys) = exec_install xs + exec_install ys
      ∧ exec_install xs ≤ exec_install (xs ++ ys))
    ∧ (∀ (force : Bool) (xs ys : List RemoveStep),
      exec_remove force (Except.ok (xs ++ ys))
          = exec_remove force (Except.ok xs) + exec_remove force (Except.ok ys)
      ∧ exec_remove force (Except.ok xs)
          ≤ exec_remove force (Except.ok (xs ++ ys))) := by
  constructor
  · intro xs ys
    have h := exec_install_append xs ys
    exact ⟨h, by omega⟩
  · intro force xs ys
    have h : exec_remove force (Except.ok (xs ++ ys))
        = exec_remove force (Except.ok xs) + exec_remove force (Except.ok ys) := by
      simp [exec_remove_ok, remove_errors_append]
    exact ⟨h, by omega⟩

/-- Claim C10: `force_remove_dir` is total: it returns the spawned removal
process's exit code when one is available, and returns 1 — never a success
code — when the process cannot be spawned or terminates without an exit
code. -/
theorem C10 :
    (∀ code : Int, force_remove_dir (some (some code)) = code)
    ∧ force_remove_dir (some none) = 1
    ∧ force_remove_dir none = 1 :=
  ⟨fun _ => rfl, rfl, rfl⟩

end OsoyAur
